import Mathlib

/-
Verification of the resilience layer of lib_ai (src/error.rs):
error classifier, retry executor, circuit breaker, and resilient provider.

Modelling conventions:
- Rust Duration and Instant values are modelled as Nat (milliseconds / ticks).
  Instant::duration_since saturates at zero, matching Nat truncated subtraction.
- f64 percentages and multipliers are modelled as Rat.
- HashMap String String is modelled as an association list with first-match lookup.
- rand::thread_rng().gen_range(lo..=hi) is modelled by a caller-supplied seed,
  mapped into the inclusive range.
- Wall-clock time is supplied explicitly: each operation takes the relevant
  Instant::now() readings as parameters.
-/

namespace LibAi

/-- Lookup in an association-list model of HashMap String String
(first binding wins, as the map has at most one binding per key). -/
def metaGet (m : List (String × String)) (k : String) : Option String :=
  (m.find? (fun p => p.1 == k)).map Prod.snd

/-- HashMap::insert on the association-list model: replaces any existing binding. -/
def insertMeta (m : List (String × String)) (k v : String) : List (String × String) :=
  (m.filter (fun p => p.1 != k)) ++ [(k, v)]

/-- Error taxonomy of lib_ai, mirroring enum AiError in src/error.rs. -/
inductive AiError where
  | NetworkError (message : String) (retryable : Bool) (status_code : Option Nat)
  | TimeoutError (timeout : Nat) (retryable : Bool)
  | ConnectionRefused (endpoint : String)
  | InvalidApiKey (provider : String)
  | AuthenticationFailed (reason : String)
  | ApiKeyExpired (provider : String)
  | RateLimitExceeded (retry_after : Option Nat) (daily_limit : Option Nat)
      (requests_remaining : Option Nat)
  | QuotaExceeded (provider : String) (quota_type : String) (reset_time : Option Nat)
  | InvalidRequest (message : String) (field : Option String) (code : Option String)
  | MalformedResponse (message : String) (raw_response : Option String)
  | UnsupportedModel (model : String) (provider : String) (available_models : List String)
  | ProviderError (provider : String) (message : String) (error_code : Option String)
      (retryable : Bool)
  | ServiceUnavailable (provider : String) (retry_after : Option Nat)
  | ContentFiltered (reason : String) (category : Option String)
  | RequestTooLarge (size : Nat) (max_size : Nat)
  | ResponseTooLarge (size : Nat)
  | TokenLimitExceeded (tokens : Nat) (max_tokens : Nat)
  | InsufficientTokens (available : Nat) (required : Nat)
  | SerializationError (message : String)
  | JsonError (message : String) (line : Option Nat) (column : Option Nat)
  | StreamError (message : String) (retryable : Bool)
  | StreamInterrupted (chunks_received : Nat)
  | ToolExecutionError (tool_name : String) (message : String) (retryable : Bool)
  | ToolNotFound (tool_name : String) (available_tools : List String)
  | InvalidToolParameters (tool_name : String) (message : String)
      (expected_schema : Option String)
  | MemoryError (operation : String) (message : String)
  | ContextTooLarge (size : Nat) (max_size : Nat)
  | ConfigurationError (field : String) (message : String) (suggestion : Option String)
  | MissingConfiguration (field : String) (description : String)
  | CircuitBreakerOpen (service : String) (failure_rate : ℚ) (retry_after : Nat)
  | InternalError (message : String) (component : Option String)
  | NotImplemented (feature : String)
  | Custom (message : String) (error_type : String) (metadata : List (String × String))
  deriving DecidableEq

/-- AiError::is_retryable from src/error.rs lines 198-240. -/
def AiError.is_retryable : AiError → Bool
  | .NetworkError _ retryable _ => retryable
  | .TimeoutError _ retryable => retryable
  | .RateLimitExceeded _ _ _ => true
  | .ServiceUnavailable _ _ => true
  | .ProviderError _ _ _ retryable => retryable
  | .StreamError _ retryable => retryable
  | .ToolExecutionError _ _ retryable => retryable
  | .StreamInterrupted _ => true
  | .InvalidApiKey _ => false
  | .AuthenticationFailed _ => false
  | .ApiKeyExpired _ => false
  | .QuotaExceeded _ _ _ => false
  | .InvalidRequest _ _ _ => false
  | .UnsupportedModel _ _ _ => false
  | .ContentFiltered _ _ => false
  | .RequestTooLarge _ _ => false
  | .TokenLimitExceeded _ _ => false
  | .InsufficientTokens _ _ => false
  | .SerializationError _ => false
  | .JsonError _ _ _ => false
  | .ToolNotFound _ _ => false
  | .InvalidToolParameters _ _ _ => false
  | .ConfigurationError _ _ _ => false
  | .MissingConfiguration _ _ => false
  | .NotImplemented _ => false
  | .ConnectionRefused _ => true
  | .MalformedResponse _ _ => false
  | .ResponseTooLarge _ => false
  | .MemoryError _ _ => false
  | .ContextTooLarge _ _ => false
  | .CircuitBreakerOpen _ _ _ => false
  | .InternalError _ _ => true
  | .Custom _ _ metadata => (metaGet metadata "retryable").any (fun v => v == "true")

/-- AiError::retry_after from src/error.rs lines 243-250. -/
def AiError.retry_after : AiError → Option Nat
  | .RateLimitExceeded ra _ _ => ra
  | .ServiceUnavailable _ ra => ra
  | .CircuitBreakerOpen _ _ ra => some ra
  | _ => none

/-- Backoff strategies, mirroring enum BackoffStrategy in src/error.rs. -/
inductive BackoffStrategy where
  | Fixed
  | Linear
  | Exponential (multiplier : ℚ)
  | Custom (delays : List Nat)
  deriving DecidableEq

/-- Jitter strategies, mirroring enum JitterStrategy in src/error.rs. -/
inductive JitterStrategy where
  | None
  | Full
  | Half
  | Fixed (amount : Nat)
  | Decorrelated
  deriving DecidableEq

/-- Retry conditions, mirroring enum RetryCondition in src/error.rs. -/
inductive RetryCondition where
  | Default
  | Always
  | Never
  | ErrorTypes (types : List String)
  | Custom
  deriving DecidableEq

/-- Retry policy, mirroring struct RetryConfig in src/error.rs (durations in ms). -/
structure RetryConfig where
  max_attempts : Nat
  initial_delay : Nat
  max_delay : Nat
  backoff : BackoffStrategy
  jitter : JitterStrategy
  respect_retry_after : Bool
  max_total_time : Option Nat
  retry_condition : RetryCondition
  deriving DecidableEq

/-- Substring test, modelling Rust str::contains used by RetryCondition::ErrorTypes. -/
def strContainsSub (s pat : String) : Bool :=
  s.data.tails.any (fun t => pat.data.isPrefixOf t)

/-- RetryExecutor::should_retry from src/error.rs lines 584-598.
The debugFmt parameter models the Debug formatting of the error used by the
ErrorTypes arm. -/
def should_retry (cfg : RetryConfig) (debugFmt : AiError → String) (error : AiError) : Bool :=
  match cfg.retry_condition with
  | .Default => error.is_retryable
  | .Always => true
  | .Never => false
  | .ErrorTypes types => types.any (fun t => strContainsSub (debugFmt error) t)
  | .Custom => error.is_retryable

/-- Base delay from the backoff strategy, the match on self.config.backoff inside
RetryExecutor::calculate_delay (src/error.rs lines 610-627). The Exponential arm
models the f64 product truncated by the as-u64 cast. -/
def base_delay (cfg : RetryConfig) (attempt : Nat) : Nat :=
  match cfg.backoff with
  | .Fixed => cfg.initial_delay
  | .Linear => cfg.initial_delay * attempt
  | .Exponential m => (Int.floor ((cfg.initial_delay : ℚ) * m ^ (attempt - 1))).toNat
  | .Custom delays => (delays.get? (attempt - 1)).getD cfg.max_delay

/-- Model of rand gen_range(lo..=hi): maps a seed into the inclusive range. -/
def gen_range (seed lo hi : Nat) : Nat :=
  lo + seed % (hi + 1 - lo)

/-- RetryExecutor::apply_jitter from src/error.rs lines 637-674. The seed models
the single rng draw that each invocation makes. -/
def apply_jitter (cfg : RetryConfig) (seed : Nat) (delay : Nat)
    (delay_history : List Nat) : Nat :=
  match cfg.jitter with
  | .None => delay
  | .Full => gen_range seed 0 delay
  | .Half =>
      let base := delay / 2
      base + gen_range seed 0 base
  | .Fixed amount => delay + gen_range seed 0 amount
  | .Decorrelated =>
      let last := (delay_history.getLast?).getD cfg.initial_delay
      let lo := delay
      let hi := max (last * 3) lo
      gen_range seed lo hi

/-- RetryExecutor::calculate_delay from src/error.rs lines 601-634. -/
def calculate_delay (cfg : RetryConfig) (seed : Nat) (attempt : Nat)
    (delay_history : List Nat) (error : AiError) : Nat :=
  match (if cfg.respect_retry_after then error.retry_after else none) with
  | some ra => min ra cfg.max_delay
  | none =>
      let base := base_delay cfg attempt
      let jittered := apply_jitter cfg seed base delay_history
      min jittered cfg.max_delay

/-- Total-time gate of RetryExecutor::execute: true when max_total_time is set
and the elapsed value has reached it. -/
def time_gate (mto : Option Nat) (elapsed : Nat) : Bool :=
  match mto with
  | some mt => decide (elapsed ≥ mt)
  | none => false

/-- Loop body of RetryExecutor::execute (src/error.rs lines 525-581), one level
per iteration of the for loop. Parameters: op n is the result of the n-th
invocation of the operation; clock n is Instant::now() at the top of iteration n;
start_time is the executor field self.start_time (captured in RetryExecutor::new,
NOT at the start of the call); rand n seeds the jitter draw of iteration n.
The second component of the result counts how many times the operation was
invoked. Fuel counts the remaining loop iterations; execute ties it to
max_attempts so that iterations run for attempt = 1..=max_attempts. -/
def execute_loop (cfg : RetryConfig) (debugFmt : AiError → String)
    (op : Nat → Except AiError α) (clock : Nat → Nat) (start_time : Nat)
    (rand : Nat → Nat) :
    Nat → Nat → Option AiError → List Nat → Except AiError α × Nat
  | 0, _, last_error, _ =>
      (Except.error (last_error.getD
        (AiError.InternalError "Retry loop completed without error" (some "retry"))), 0)
  | fuel + 1, attempt, last_error, delay_history =>
      let total_elapsed := clock attempt - start_time
      if time_gate cfg.max_total_time total_elapsed then
        (Except.error (last_error.getD
          (AiError.TimeoutError (cfg.max_total_time.getD 0) false)), 0)
      else
        match op attempt with
        | .ok v => (.ok v, 1)
        | .error e =>
            if should_retry cfg debugFmt e then
              if attempt < cfg.max_attempts then
                let delay := calculate_delay cfg (rand attempt) attempt delay_history e
                if time_gate cfg.max_total_time (total_elapsed + delay) then
                  (.error e, 1)
                else
                  let res := execute_loop cfg debugFmt op clock start_time rand
                    fuel (attempt + 1) (some e) (delay_history ++ [delay])
                  (res.1, res.2 + 1)
              else
                let res := execute_loop cfg debugFmt op clock start_time rand
                  fuel (attempt + 1) (some e) delay_history
                (res.1, res.2 + 1)
            else
              (.error e, 1)

/-- RetryExecutor struct: config plus the start_time Instant captured once in
RetryExecutor::new (src/error.rs lines 511-522). -/
structure RetryExecutor where
  config : RetryConfig
  start_time : Nat

/-- RetryExecutor::execute from src/error.rs lines 525-581: runs the retry loop
for attempt = 1..=max_attempts with a fresh RetryContext (last_error none,
empty delay history). Returns the result and the number of operation invocations. -/
def RetryExecutor.execute (ex : RetryExecutor) (debugFmt : AiError → String)
    (op : Nat → Except AiError α) (clock : Nat → Nat) (rand : Nat → Nat) :
    Except AiError α × Nat :=
  execute_loop ex.config debugFmt op clock ex.start_time rand ex.config.max_attempts 1 none []

/-- Circuit breaker configuration, mirroring struct CircuitBreakerConfig in
src/error.rs (durations in ms, thresholds are f64 percentages modelled as Rat). -/
structure CircuitBreakerConfig where
  failure_threshold : ℚ
  minimum_request_count : Nat
  measurement_window : Nat
  recovery_timeout : Nat
  half_open_max_requests : Nat
  success_threshold : ℚ
  deriving DecidableEq

/-- Circuit breaker state, mirroring enum CircuitState in src/error.rs. -/
inductive CircuitState where
  | Closed
  | Open (opened_at : Nat)
  | HalfOpen (opened_at : Nat) (attempts : Nat) (successes : Nat)
  deriving DecidableEq

/-- Request outcome entry, mirroring enum RequestOutcome in src/error.rs. -/
inductive RequestOutcome where
  | Success (t : Nat)
  | Failure (t : Nat)
  deriving DecidableEq

/-- Timestamp carried by a request outcome. -/
def RequestOutcome.time : RequestOutcome → Nat
  | .Success t => t
  | .Failure t => t

/-- Circuit breaker, mirroring struct CircuitBreaker in src/error.rs. The
request_history list models the VecDeque with its front at the list head. -/
structure CircuitBreaker where
  config : CircuitBreakerConfig
  state : CircuitState
  request_history : List RequestOutcome
  service_name : String
  deriving DecidableEq

/-- CircuitBreaker::new from src/error.rs lines 820-827. -/
def CircuitBreaker.new (service_name : String) (config : CircuitBreakerConfig) :
    CircuitBreaker :=
  ⟨config, CircuitState.Closed, [], service_name⟩

/-- CircuitBreaker::allow_request from src/error.rs lines 861-886; now models the
Instant::now() taken inside. Returns the gate decision and the (possibly
Open-to-HalfOpen transitioned) breaker. -/
def allow_request (cb : CircuitBreaker) (now : Nat) : Bool × CircuitBreaker :=
  match cb.state with
  | .Closed => (true, cb)
  | .Open opened_at =>
      if now - opened_at ≥ cb.config.recovery_timeout then
        (true, { cb with state := .HalfOpen opened_at 0 0 })
      else
        (false, cb)
  | .HalfOpen _ attempts _ =>
      (decide (attempts < cb.config.half_open_max_requests), cb)

/-- Front-pruning while-loop of CircuitBreaker::add_request_outcome
(src/error.rs lines 962-972): pops entries strictly older than the window,
stopping at the first entry inside it. -/
def prune_history (window now : Nat) : List RequestOutcome → List RequestOutcome
  | [] => []
  | o :: rest =>
      if now - o.time > window then prune_history window now rest
      else o :: rest

/-- CircuitBreaker::add_request_outcome from src/error.rs lines 957-976. -/
def add_request_outcome (cb : CircuitBreaker) (now : Nat) (outcome : RequestOutcome) :
    CircuitBreaker :=
  { cb with request_history :=
      prune_history cb.config.measurement_window now cb.request_history ++ [outcome] }

/-- Number of Failure entries in a history, the counting loop of
CircuitBreaker::calculate_failure_rate. -/
def failures_in (h : List RequestOutcome) : Nat :=
  h.countP (fun o => match o with | .Failure _ => true | _ => false)

/-- Rate formula of CircuitBreaker::calculate_failure_rate from src/error.rs
lines 991-1008. The Rust function begins by locking request_history; this pure
version is its result when that lock is free (as in the reject branch of
CircuitBreaker::execute, where no history guard is held). The lock acquisition
itself is modelled by calculate_failure_rate_run below. -/
def calculate_failure_rate (h : List RequestOutcome) : ℚ :=
  if h.isEmpty then 0
  else ((failures_in h : ℚ) / (h.length : ℚ)) * 100

/-- Decision of CircuitBreaker::should_open_circuit from src/error.rs lines
979-988 with the re-entrant history lock collapsed. In the source the function
still holds the request_history MutexGuard when it calls calculate_failure_rate
at line 986, which locks the same std Mutex again; a std Mutex is not
re-entrant, so past the minimum-count early return the real function never
returns. This collapsed version records the decision that code would make were
the rate computed; should_open_circuit_run below models the actual run
behavior, including the never-returning path. -/
def should_open_circuit (cb : CircuitBreaker) : Bool :=
  if cb.request_history.length < cb.config.minimum_request_count then false
  else decide (calculate_failure_rate cb.request_history ≥ cb.config.failure_threshold)

/-- CircuitBreaker::record_success from src/error.rs lines 889-925.
request_time is the Instant captured before the operation ran; now models the
Instant::now() readings taken while recording (pruning and reopening). -/
def record_success (cb : CircuitBreaker) (request_time now : Nat) : CircuitBreaker :=
  let cb := add_request_outcome cb now (.Success request_time)
  match cb.state with
  | .HalfOpen opened_at attempts successes =>
      let new_attempts := attempts + 1
      let new_successes := successes + 1
      let success_rate : ℚ := ((new_successes : ℚ) / (new_attempts : ℚ)) * 100
      if new_attempts ≥ cb.config.half_open_max_requests then
        if success_rate ≥ cb.config.success_threshold then
          { cb with state := .Closed, request_history := [] }
        else
          { cb with state := .Open now }
      else
        { cb with state := .HalfOpen opened_at new_attempts new_successes }
  | _ => cb

/-- CircuitBreaker::record_failure from src/error.rs lines 928-954. The Closed
arm uses the collapsed should_open_circuit decision, so this version models
Closed-state failure recording as if it always completed; in the program that
arm never completes once the window length reaches minimum_request_count (see
should_open_circuit above), and record_failure_run below is the lock-faithful
version. The HalfOpen and Open arms never call should_open_circuit and are
unaffected. -/
def record_failure (cb : CircuitBreaker) (request_time now : Nat) : CircuitBreaker :=
  let cb := add_request_outcome cb now (.Failure request_time)
  match cb.state with
  | .Closed =>
      if should_open_circuit cb then { cb with state := .Open now } else cb
  | .HalfOpen _ _ _ => { cb with state := .Open now }
  | .Open _ => cb

/-- Run of CircuitBreaker::calculate_failure_rate (src/error.rs lines 991-1008)
tracking its opening lock of request_history: history_held is true when the
calling thread already holds that std Mutex guard, in which case the lock call
never returns (std sync Mutex is not re-entrant), modelled as none. -/
def calculate_failure_rate_run (history_held : Bool) (h : List RequestOutcome) :
    Option ℚ :=
  if history_held then none
  else some (calculate_failure_rate h)

/-- Run of CircuitBreaker::should_open_circuit (src/error.rs lines 979-988): it
locks request_history into a named guard that lives to the end of the function;
below the minimum-count early return it calls calculate_failure_rate while
still holding that guard, so the nested lock never returns. none models a call
that does not return. -/
def should_open_circuit_run (cb : CircuitBreaker) : Option Bool :=
  if cb.request_history.length < cb.config.minimum_request_count then
    some false
  else
    (calculate_failure_rate_run true cb.request_history).map
      (fun rate => decide (rate ≥ cb.config.failure_threshold))

/-- Run of CircuitBreaker::record_failure (src/error.rs lines 928-954) with the
lock behavior of should_open_circuit kept: the Closed arm consults
should_open_circuit_run, and none propagates a call that never returns. The
HalfOpen and Open arms do not touch should_open_circuit and always complete. -/
def record_failure_run (cb : CircuitBreaker) (request_time now : Nat) :
    Option CircuitBreaker :=
  let cb := add_request_outcome cb now (.Failure request_time)
  match cb.state with
  | .Closed =>
      (should_open_circuit_run cb).map
        (fun b => if b then { cb with state := .Open now } else cb)
  | .HalfOpen _ _ _ => some { cb with state := .Open now }
  | .Open _ => some cb

/-- CircuitBreaker::execute from src/error.rs lines 830-858. The op pair carries
the result of the wrapped operation together with the number of times the inner
provider was invoked while producing it; the reject branch returns 0 because the
closure is never called there. t_gate models Instant::now() inside allow_request,
start_time the Instant taken before the operation, t_record the recording time. -/
def CircuitBreaker.execute (cb : CircuitBreaker) (t_gate start_time t_record : Nat)
    (op : Except AiError α × Nat) : Except AiError α × CircuitBreaker × Nat :=
  match allow_request cb t_gate with
  | (false, cb1) =>
      (.error (.CircuitBreakerOpen cb1.service_name
        (calculate_failure_rate cb1.request_history) cb1.config.recovery_timeout),
       cb1, 0)
  | (true, cb1) =>
      match op.1 with
      | .ok v => (.ok v, record_success cb1 start_time t_record, op.2)
      | .error e => (.error e, record_failure cb1 start_time t_record, op.2)

/-- The enhance_error function from src/error.rs lines 1284-1317. toStr models the
Display formatting used for the catch-all ProviderError message. -/
def enhance_error (toStr : AiError → String) (error : AiError)
    (provider_name : String) : AiError :=
  match error with
  | .NetworkError m r s => .NetworkError m r s
  | .TimeoutError t r => .TimeoutError t r
  | .RateLimitExceeded a b c => .RateLimitExceeded a b c
  | .InvalidApiKey p => .InvalidApiKey p
  | .ProviderError p m c r => .ProviderError p m c r
  | .Custom message error_type metadata =>
      .Custom message error_type (insertMeta metadata "provider" provider_name)
  | e => .ProviderError provider_name (toStr e) none e.is_retryable

/-- ResilientProvider::complete from src/error.rs lines 1214-1243: the circuit
breaker is the outer gate and the retry executor runs inside it, the inner
provider call wrapped with enhance_error. inner_op n is the result of the n-th
invocation of the inner provider for this outer call; the returned Nat counts
those invocations. -/
def ResilientProvider.complete (rcfg : RetryConfig) (retry_start : Nat)
    (cb : CircuitBreaker) (provider_name : String) (toStr : AiError → String)
    (debugFmt : AiError → String) (inner_op : Nat → Except AiError α)
    (clock : Nat → Nat) (rand : Nat → Nat) (t_gate start_time t_record : Nat) :
    Except AiError α × CircuitBreaker × Nat :=
  CircuitBreaker.execute cb t_gate start_time t_record
    (RetryExecutor.execute ⟨rcfg, retry_start⟩ debugFmt
      (fun n =>
        match inner_op n with
        | .ok v => .ok v
        | .error e => .error (enhance_error toStr e provider_name))
      clock rand)

/-- ResilientProvider::complete_stream from src/error.rs lines 1245-1268: only
the circuit breaker wraps the call; the inner provider stream call runs exactly
once in the allowed branch, with no retry. -/
def ResilientProvider.complete_stream (cb : CircuitBreaker) (provider_name : String)
    (toStr : AiError → String) (inner_result : Except AiError σ)
    (t_gate start_time t_record : Nat) : Except AiError σ × CircuitBreaker × Nat :=
  CircuitBreaker.execute cb t_gate start_time t_record
    (match inner_result with
     | .ok v => (.ok v, 1)
     | .error e => (.error (enhance_error toStr e provider_name), 1))

/-- Atomic operations a circuit breaker undergoes: the gate check and the two
outcome recordings. The failure step uses the collapsed record_failure, which
treats the Closed-arm open decision as completing; the program's reachable
states are therefore a subset of the states reachable here, so invariants
proved over this relation cover every state the program can reach. -/
inductive CBStep : CircuitBreaker → CircuitBreaker → Prop
  | allow (cb : CircuitBreaker) (now : Nat) : CBStep cb (allow_request cb now).2
  | success (cb : CircuitBreaker) (rt now : Nat) : CBStep cb (record_success cb rt now)
  | failure (cb : CircuitBreaker) (rt now : Nat) : CBStep cb (record_failure cb rt now)

/-- Breaker states reachable from CircuitBreaker::new through gate checks and
outcome recordings. -/
inductive CBReachable (cfg : CircuitBreakerConfig) (name : String) :
    CircuitBreaker → Prop
  | init : CBReachable cfg name (CircuitBreaker.new name cfg)
  | step {cb cb1 : CircuitBreaker} : CBReachable cfg name cb → CBStep cb cb1 →
      CBReachable cfg name cb1

/-- The retry loop never performs more operation invocations than it has loop
iterations of fuel. -/
theorem execute_loop_count_le (cfg : RetryConfig) (debugFmt : AiError → String)
    (op : Nat → Except AiError α) (clock : Nat → Nat) (start_time : Nat)
    (rand : Nat → Nat) :
    ∀ fuel attempt last_error dh,
      (execute_loop cfg debugFmt op clock start_time rand fuel attempt last_error dh).2
        ≤ fuel := by
  intro fuel
  induction fuel with
  | zero => intro a l d; simp [execute_loop]
  | succ n ih =>
      intro a l d
      simp only [execute_loop]
      split
      · simp
      · split
        · simp
        · split
          · split
            · split
              · simp
              · simpa using Nat.succ_le_succ (ih (a + 1) _ _)
            · simpa using Nat.succ_le_succ (ih (a + 1) _ _)
          · simp

/-- C9 counterexample: the claim says is_retryable returns true for network error
kinds, but a NetworkError whose retryable flag is false is classified
non-retryable, so the claim as stated is false. -/
theorem network_error_flag_counterexample :
    ¬ (AiError.is_retryable (.NetworkError "connection reset" false (some 500)) = true) := by
  decide

/-- C9 amended: is_retryable returns the per-error retryable flag for network and
timeout kinds (rather than unconditionally true), returns true for rate-limit,
service-unavailable and stream-interrupted kinds, returns false for
authentication, request-validation, content-filter, token-limit, serialization
and configuration kinds, and a Custom error is retryable exactly when its
metadata carries the key retryable with value true. -/
theorem is_retryable_classification :
    (∀ m r sc, (AiError.NetworkError m r sc).is_retryable = r) ∧
    (∀ t r, (AiError.TimeoutError t r).is_retryable = r) ∧
    (∀ ra dl rr, (AiError.RateLimitExceeded ra dl rr).is_retryable = true) ∧
    (∀ p ra, (AiError.ServiceUnavailable p ra).is_retryable = true) ∧
    (∀ c, (AiError.StreamInterrupted c).is_retryable = true) ∧
    (∀ p, (AiError.InvalidApiKey p).is_retryable = false) ∧
    (∀ r, (AiError.AuthenticationFailed r).is_retryable = false) ∧
    (∀ p, (AiError.ApiKeyExpired p).is_retryable = false) ∧
    (∀ m f c, (AiError.InvalidRequest m f c).is_retryable = false) ∧
    (∀ r c, (AiError.ContentFiltered r c).is_retryable = false) ∧
    (∀ t mt, (AiError.TokenLimitExceeded t mt).is_retryable = false) ∧
    (∀ m, (AiError.SerializationError m).is_retryable = false) ∧
    (∀ m l c, (AiError.JsonError m l c).is_retryable = false) ∧
    (∀ f m s, (AiError.ConfigurationError f m s).is_retryable = false) ∧
    (∀ f d, (AiError.MissingConfiguration f d).is_retryable = false) ∧
    (∀ m et md, ((AiError.Custom m et md).is_retryable = true ↔
      metaGet md "retryable" = some "true")) := by
  refine ⟨fun _ _ _ => rfl, fun _ _ => rfl, fun _ _ _ => rfl, fun _ _ => rfl,
    fun _ => rfl, fun _ => rfl, fun _ => rfl, fun _ => rfl, fun _ _ _ => rfl,
    fun _ _ => rfl, fun _ _ => rfl, fun _ => rfl, fun _ _ _ => rfl,
    fun _ _ _ => rfl, fun _ _ => rfl, fun m et md => ?_⟩
  cases h : metaGet md "retryable" with
  | none => simp [AiError.is_retryable, h]
  | some v => simp [AiError.is_retryable, h, Option.any]

/-- C9 witness: a concrete instance of the amended classification. -/
theorem is_retryable_classification_witness :
    (AiError.StreamInterrupted 3).is_retryable = true :=
  is_retryable_classification.2.2.2.2.1 3

/-- C8: with Custom backoff, the base delay of attempt n is list entry n-1 while
the list lasts, and max_delay once the list is exhausted; the computation is
total for every attempt number. -/
theorem custom_backoff_delay (cfg : RetryConfig) (l : List Nat) (n : Nat)
    (hb : cfg.backoff = .Custom l) (h1 : 1 ≤ n) :
    (∀ hn : n ≤ l.length, base_delay cfg n = l.get ⟨n - 1, by omega⟩) ∧
    (l.length < n → base_delay cfg n = cfg.max_delay) := by
  constructor
  · intro hn
    have hlt : n - 1 < l.length := by omega
    simp [base_delay, hb, List.getElem?_eq_getElem hlt, List.get_eq_getElem]
  · intro hgt
    have hnone : l.get? (n - 1) = none := List.get?_eq_none.mpr (by omega)
    simp only [base_delay, hb]
    rw [hnone]
    rfl

/-- C8 witness: scenario E, Custom([10,50,200]) with a 5th attempt falls back to
max_delay rather than an out-of-bounds access. -/
theorem custom_backoff_delay_witness :
    base_delay ⟨6, 10, 60000, .Custom [10, 50, 200], .None, false, none, .Default⟩ 5
      = 60000 :=
  (custom_backoff_delay ⟨6, 10, 60000, .Custom [10, 50, 200], .None, false, none, .Default⟩
    [10, 50, 200] 5 rfl (by norm_num)).2 (by norm_num)

/-- C1: the claim that the max_total_time budget restarts at each execute call is
FALSE on the code. RetryExecutor::new captures self.start_time once, and execute
measures total_elapsed against that construction instant, so an executor
constructed at tick 0 with max_total_time of 10 whose execute call begins at
tick 15 returns a synthesized timeout without ever invoking the operation, even
though the operation would succeed immediately. The second conjunct shows the
identical call succeeds after one invocation when the executor start_time
coincides with the call start, isolating the stale baseline as the cause. -/
theorem stale_start_time_skips_first_attempt :
    RetryExecutor.execute
        (⟨⟨3, 10, 1000, .Fixed, .None, true, some 10, .Default⟩, 0⟩ : RetryExecutor)
        (fun _ => "") (fun _ => Except.ok (42 : Nat)) (fun _ => 15) (fun _ => 0)
      = (.error (.TimeoutError 10 false), 0) ∧
    RetryExecutor.execute
        (⟨⟨3, 10, 1000, .Fixed, .None, true, some 10, .Default⟩, 15⟩ : RetryExecutor)
        (fun _ => "") (fun _ => Except.ok (42 : Nat)) (fun _ => 15) (fun _ => 0)
      = (.ok 42, 1) := by
  exact ⟨rfl, rfl⟩

/-- C5: the retry executor invokes the operation at most max_attempts times; a
successful invocation returns Ok with the operation's value immediately, as the
sole invocation of that loop iteration; and in scenario A (max_attempts 5,
operation failing with a retryable error twice then succeeding) it performs
exactly 3 invocations and returns Ok. -/
theorem retry_invocation_bounds :
    (∀ (α : Type) (ex : RetryExecutor) (debugFmt : AiError → String)
        (op : Nat → Except AiError α) (clock : Nat → Nat) (rand : Nat → Nat),
        (RetryExecutor.execute ex debugFmt op clock rand).2 ≤ ex.config.max_attempts) ∧
    (∀ (α : Type) (cfg : RetryConfig) (debugFmt : AiError → String)
        (op : Nat → Except AiError α) (clock : Nat → Nat) (start_time : Nat)
        (rand : Nat → Nat) (fuel attempt : Nat) (last_error : Option AiError)
        (dh : List Nat) (v : α),
        (∀ mt, cfg.max_total_time = some mt → clock attempt - start_time < mt) →
        op attempt = .ok v →
        execute_loop cfg debugFmt op clock start_time rand (fuel + 1) attempt last_error dh
          = (.ok v, 1)) ∧
    RetryExecutor.execute
        (⟨⟨5, 10, 60000, .Fixed, .None, true, none, .Default⟩, 0⟩ : RetryExecutor)
        (fun _ => "")
        (fun n => if n ≤ 2 then .error (.NetworkError "boom" true none)
          else .ok (42 : Nat))
        (fun _ => 0) (fun _ => 0)
      = (.ok 42, 3) := by
  refine ⟨?_, ?_, rfl⟩
  · intro α ex debugFmt op clock rand
    exact execute_loop_count_le ex.config debugFmt op clock ex.start_time rand
      ex.config.max_attempts 1 none []
  · intro α cfg debugFmt op clock start_time rand fuel attempt last_error dh v hg hok
    have hgate : time_gate cfg.max_total_time (clock attempt - start_time) = false := by
      cases hmt : cfg.max_total_time with
      | none => rfl
      | some mt =>
          have := hg mt hmt
          simp only [time_gate, decide_eq_false_iff_not]
          omega
    simp only [execute_loop]
    rw [hgate]
    simp [hok]

/-- C5 witness: a single-iteration instance of the first-success conjunct. -/
theorem retry_invocation_bounds_witness :
    execute_loop ⟨5, 10, 60000, .Fixed, .None, true, none, .Default⟩ (fun _ => "")
      (fun _ => Except.ok (7 : Nat)) (fun _ => 0) 0 (fun _ => 0) 1 1 none []
      = (.ok 7, 1) :=
  retry_invocation_bounds.2.1 Nat ⟨5, 10, 60000, .Fixed, .None, true, none, .Default⟩
    (fun _ => "") (fun _ => Except.ok 7) (fun _ => 0) 0 (fun _ => 0) 0 1 none [] 7
    (fun _ h => Option.noConfusion h) rfl

/-- C2: the claimed Closed-state open decision never executes in the program.
When the post-insert window length is below minimum_request_count the call
completes and the breaker stays Closed, as the claim says; but as soon as the
window length reaches minimum_request_count, should_open_circuit calls
calculate_failure_rate while still holding the request_history lock and never
returns, so record_failure hangs before any decision and the Closed-to-Open
transition (and equally the remain-Closed-below-threshold outcome) is
unreachable. Recording a success while Closed does complete and leaves the
state Closed. -/
theorem closed_record_failure_deadlock (cb : CircuitBreaker) (rt now : Nat)
    (h : cb.state = .Closed) :
    ((add_request_outcome cb now (.Failure rt)).request_history.length <
        cb.config.minimum_request_count →
      record_failure_run cb rt now = some (add_request_outcome cb now (.Failure rt))) ∧
    ((add_request_outcome cb now (.Failure rt)).request_history.length ≥
        cb.config.minimum_request_count →
      record_failure_run cb rt now = none) ∧
    (record_success cb rt now).state = .Closed := by
  have hstate : (add_request_outcome cb now (.Failure rt)).state = CircuitState.Closed := by
    simp [add_request_outcome, h]
  refine ⟨?_, ?_, ?_⟩
  · intro hlen
    simp only [record_failure_run]
    rw [hstate]
    simp only [should_open_circuit_run, add_request_outcome] at hlen ⊢
    rw [if_pos hlen]
    simp
  · intro hlen
    simp only [record_failure_run]
    rw [hstate]
    simp only [should_open_circuit_run, add_request_outcome] at hlen ⊢
    rw [if_neg (by omega)]
    simp [calculate_failure_rate_run]
  · have hs : (add_request_outcome cb now (.Success rt)).state = CircuitState.Closed := by
      simp [add_request_outcome, h]
    simp only [record_success]
    rw [hs]
    exact hs

/-- C2 witness: with minimum count 1, the very first recorded failure reaches the
rate computation with the history lock held, so the call never returns. -/
theorem closed_record_failure_deadlock_witness :
    record_failure_run (⟨⟨50, 1, 60, 5, 1, 60⟩, .Closed, [], "svc"⟩ : CircuitBreaker) 0 0
      = none :=
  (closed_record_failure_deadlock ⟨⟨50, 1, 60, 5, 1, 60⟩, .Closed, [], "svc"⟩ 0 0 rfl).2.1
    (by norm_num [add_request_outcome, prune_history])

/-- C3: while Open and inside the recovery timeout, execute rejects the call with
a CircuitBreakerOpen error carrying the service name, the current failure rate
and retry_after equal to recovery_timeout, leaving the breaker untouched and
never invoking the operation; once the recovery timeout has elapsed, the gate
check transitions the state to HalfOpen with the original opened_at and zeroed
counters and the operation of that call is invoked. -/
theorem open_circuit_gate (α : Type) (cb : CircuitBreaker)
    (oa t_gate start_time t_record : Nat) (op : Except AiError α × Nat)
    (h : cb.state = .Open oa) :
    (t_gate - oa < cb.config.recovery_timeout →
      CircuitBreaker.execute cb t_gate start_time t_record op =
        (.error (.CircuitBreakerOpen cb.service_name
            (calculate_failure_rate cb.request_history) cb.config.recovery_timeout),
         cb, 0)) ∧
    (t_gate - oa ≥ cb.config.recovery_timeout →
      allow_request cb t_gate = (true, { cb with state := .HalfOpen oa 0 0 }) ∧
      (CircuitBreaker.execute cb t_gate start_time t_record op).2.2 = op.2) := by
  constructor
  · intro hlt
    have hreject : allow_request cb t_gate = (false, cb) := by
      simp only [allow_request, h]
      rw [if_neg (by omega)]
    simp [CircuitBreaker.execute, hreject]
  · intro hge
    have hallow : allow_request cb t_gate = (true, { cb with state := .HalfOpen oa 0 0 }) := by
      simp only [allow_request, h]
      rw [if_pos hge]
    refine ⟨hallow, ?_⟩
    simp only [CircuitBreaker.execute, hallow]
    cases op.1 <;> simp

/-- C3 witness: a breaker opened at tick 0 with a 5-tick recovery timeout rejects
a call at tick 1 with the synthesized error and without touching its state. -/
theorem open_circuit_gate_witness :
    CircuitBreaker.execute
        (⟨⟨50, 1, 60, 5, 1, 60⟩, .Open 0, [.Failure 0], "svc"⟩ : CircuitBreaker)
        1 1 1 ((Except.ok 0, 1) : Except AiError Nat × Nat)
      = (.error (.CircuitBreakerOpen "svc" 100 5),
         ⟨⟨50, 1, 60, 5, 1, 60⟩, .Open 0, [.Failure 0], "svc"⟩, 0) := by
  have h := (open_circuit_gate Nat ⟨⟨50, 1, 60, 5, 1, 60⟩, .Open 0, [.Failure 0], "svc"⟩
    0 1 1 1 (Except.ok 0, 1) rfl).1 (by norm_num)
  rw [h]
  norm_num [calculate_failure_rate, failures_in]

/-- C4: while HalfOpen, any recorded failure immediately reopens the circuit at
the recording instant; a recorded success either closes the circuit (clearing
the history) when the probe round is complete and the success rate reaches
success_threshold, reopens it when the round completes below the threshold, or
increments both counters when the round is still in progress. -/
theorem half_open_probe (cb : CircuitBreaker) (oa a s rt now : Nat)
    (h : cb.state = .HalfOpen oa a s) :
    (record_failure cb rt now).state = .Open now ∧
    (a + 1 ≥ cb.config.half_open_max_requests →
      ((((s : ℚ) + 1) / ((a : ℚ) + 1) * 100 ≥ cb.config.success_threshold →
          (record_success cb rt now).state = .Closed ∧
          (record_success cb rt now).request_history = []) ∧
       (((s : ℚ) + 1) / ((a : ℚ) + 1) * 100 < cb.config.success_threshold →
          (record_success cb rt now).state = .Open now))) ∧
    (a + 1 < cb.config.half_open_max_requests →
      (record_success cb rt now).state = .HalfOpen oa (a + 1) (s + 1)) := by
  have hfstate : (add_request_outcome cb now (.Failure rt)).state = cb.state := by
    simp [add_request_outcome]
  have hsstate : (add_request_outcome cb now (.Success rt)).state = cb.state := by
    simp [add_request_outcome]
  refine ⟨?_, ?_, ?_⟩
  · simp only [record_failure]
    rw [hfstate, h]
  · intro hround
    constructor
    · intro hok
      simp only [record_success]
      rw [hsstate, h]
      simp only [add_request_outcome]
      rw [if_pos (by simpa using hround)]
      rw [if_pos (by push_cast; exact hok)]
      exact ⟨rfl, rfl⟩
    · intro hbad
      simp only [record_success]
      rw [hsstate, h]
      simp only [add_request_outcome]
      rw [if_pos (by simpa using hround)]
      rw [if_neg (by push_cast; exact not_le.mpr hbad)]
  · intro hmid
    simp only [record_success]
    rw [hsstate, h]
    simp only [add_request_outcome]
    rw [if_neg (by simpa using Nat.not_le.mpr hmid)]

/-- C4 witness: with one allowed probe and a 60 percent success threshold, a
single successful probe closes the circuit and clears the history. -/
theorem half_open_probe_witness :
    (record_success (⟨⟨50, 1, 60, 5, 1, 60⟩, .HalfOpen 0 0 0, [.Failure 0], "svc"⟩ :
        CircuitBreaker) 6 6).state = .Closed := by
  have h := ((half_open_probe ⟨⟨50, 1, 60, 5, 1, 60⟩, .HalfOpen 0 0 0, [.Failure 0], "svc"⟩
    0 0 0 6 6 rfl).2.1 (by norm_num)).1 (by norm_num)
  exact h.1

/-- Entries surviving the front-pruning of a time-ordered history are within the
window relative to the pruning instant. -/
theorem prune_history_mem (window now : Nat) :
    ∀ h : List RequestOutcome,
      h.Pairwise (fun x y => x.time ≤ y.time) →
      ∀ e ∈ prune_history window now h, now - e.time ≤ window := by
  intro h
  induction h with
  | nil => intro _ e he; simp [prune_history] at he
  | cons o rest ih =>
      intro hp e he
      rcases List.pairwise_cons.mp hp with ⟨hhead, htail⟩
      simp only [prune_history] at he
      by_cases hc : now - o.time > window
      · rw [if_pos hc] at he
        exact ih htail e he
      · rw [if_neg hc] at he
        rcases List.mem_cons.mp he with rfl | hmem
        · omega
        · have h1 : o.time ≤ e.time := hhead e hmem
          have h2 : now - e.time ≤ now - o.time := Nat.sub_le_sub_left h1 now
          omega

/-- C6 counterexample: the claim that every reader observes only entries inside
the measurement window is false. A failure inserted at tick 0 into a breaker
with a 60-tick window is still present, and still counted by the failure-rate
reader, when read at tick 100, because pruning happens only on insert. -/
theorem window_staleness_counterexample :
    (add_request_outcome (⟨⟨50, 10, 60, 30, 3, 60⟩, .Closed, [], "svc"⟩ : CircuitBreaker)
        0 (.Failure 0)).request_history = [.Failure 0] ∧
    (100 : Nat) - (RequestOutcome.Failure 0).time >
      (⟨⟨50, 10, 60, 30, 3, 60⟩, .Closed, [], "svc"⟩ : CircuitBreaker).config.measurement_window ∧
    calculate_failure_rate
        (add_request_outcome (⟨⟨50, 10, 60, 30, 3, 60⟩, .Closed, [], "svc"⟩ : CircuitBreaker)
          0 (.Failure 0)).request_history = 100 := by
  refine ⟨by simp [add_request_outcome, prune_history], by norm_num [RequestOutcome.time], ?_⟩
  norm_num [add_request_outcome, prune_history, calculate_failure_rate, failures_in]

/-- C6 amended: on every insert the history is pruned, from the oldest end, of
entries older than measurement_window relative to the insert instant; provided
the stored timestamps are in nondecreasing order and the inserted entry is
itself within the window, the history right after the insert contains no entry
older than the window. Readers between inserts do not re-prune, so entries may
age past the window before the next read, as the counterexample shows. -/
theorem insert_prunes_window (cb : CircuitBreaker) (now : Nat) (o : RequestOutcome)
    (hs : cb.request_history.Pairwise (fun x y => x.time ≤ y.time))
    (ho : now - o.time ≤ cb.config.measurement_window) :
    ∀ e ∈ (add_request_outcome cb now o).request_history,
      now - e.time ≤ cb.config.measurement_window := by
  intro e he
  simp only [add_request_outcome] at he
  rcases List.mem_append.mp he with hmem | hsingle
  · exact prune_history_mem cb.config.measurement_window now cb.request_history hs e hmem
  · rcases List.mem_singleton.mp hsingle with rfl
    exact ho

/-- C6 witness: inserting at tick 50 into a sorted one-entry history keeps the
surviving old entry within the 60-tick window at the insert instant. -/
theorem insert_prunes_window_witness :
    (50 : Nat) - (RequestOutcome.Success 0).time ≤
      (⟨⟨50, 10, 60, 30, 3, 60⟩, .Closed, [(.Success 0)], "svc"⟩ :
        CircuitBreaker).config.measurement_window :=
  insert_prunes_window ⟨⟨50, 10, 60, 30, 3, 60⟩, .Closed, [(.Success 0)], "svc"⟩ 50
    (.Failure 50) (by simp) (by norm_num [RequestOutcome.time]) (.Success 0)
    (by simp [add_request_outcome, prune_history, RequestOutcome.time])

/-- C7: the circuit breaker is the outer gate of the resilient provider. When the
gate rejects, neither complete nor complete_stream invokes the inner provider at
all, so an open circuit prevents even the first retry attempt; and
complete_stream never retries, invoking the inner provider at most once per
outer call. -/
theorem resilient_outer_gate :
    (∀ (α : Type) (rcfg : RetryConfig) (retry_start : Nat) (cb : CircuitBreaker)
        (pn : String) (toStr debugFmt : AiError → String)
        (inner_op : Nat → Except AiError α) (clock rand : Nat → Nat)
        (t_gate start_time t_record : Nat),
        (allow_request cb t_gate).1 = false →
        (ResilientProvider.complete rcfg retry_start cb pn toStr debugFmt inner_op
            clock rand t_gate start_time t_record).2.2 = 0) ∧
    (∀ (σ : Type) (cb : CircuitBreaker) (pn : String) (toStr : AiError → String)
        (inner_result : Except AiError σ) (t_gate start_time t_record : Nat),
        (allow_request cb t_gate).1 = false →
        (ResilientProvider.complete_stream cb pn toStr inner_result
            t_gate start_time t_record).2.2 = 0) ∧
    (∀ (σ : Type) (cb : CircuitBreaker) (pn : String) (toStr : AiError → String)
        (inner_result : Except AiError σ) (t_gate start_time t_record : Nat),
        (ResilientProvider.complete_stream cb pn toStr inner_result
            t_gate start_time t_record).2.2 ≤ 1) := by
  refine ⟨?_, ?_, ?_⟩
  · intro α rcfg retry_start cb pn toStr debugFmt inner_op clock rand tg ts tr hrej
    rcases hA : allow_request cb tg with ⟨b, cb1⟩
    have hb : b = false := by rw [hA] at hrej; exact hrej
    subst hb
    simp [ResilientProvider.complete, CircuitBreaker.execute, hA]
  · intro σ cb pn toStr inner_result tg ts tr hrej
    rcases hA : allow_request cb tg with ⟨b, cb1⟩
    have hb : b = false := by rw [hA] at hrej; exact hrej
    subst hb
    simp [ResilientProvider.complete_stream, CircuitBreaker.execute, hA]
  · intro σ cb pn toStr inner_result tg ts tr
    rcases hA : allow_request cb tg with ⟨b, cb1⟩
    cases b
    · simp [ResilientProvider.complete_stream, CircuitBreaker.execute, hA]
    · cases inner_result <;>
        simp [ResilientProvider.complete_stream, CircuitBreaker.execute, hA]

/-- C7 witness: an open breaker inside its recovery timeout makes complete return
with zero inner invocations. -/
theorem resilient_outer_gate_witness :
    (ResilientProvider.complete ⟨3, 10, 1000, .Fixed, .None, true, none, .Default⟩ 0
        (⟨⟨50, 1, 60, 5, 1, 60⟩, .Open 0, [.Failure 0], "svc"⟩ : CircuitBreaker) "p"
        (fun _ => "") (fun _ => "") (fun _ => Except.ok (0 : Nat)) (fun _ => 0)
        (fun _ => 0) 1 1 1).2.2 = 0 :=
  resilient_outer_gate.1 Nat ⟨3, 10, 1000, .Fixed, .None, true, none, .Default⟩ 0
    ⟨⟨50, 1, 60, 5, 1, 60⟩, .Open 0, [.Failure 0], "svc"⟩ "p" (fun _ => "") (fun _ => "")
    (fun _ => Except.ok 0) (fun _ => 0) (fun _ => 0) 1 1 1 rfl

/-- Invariant: in a HalfOpen state the success counter equals the attempt
counter. -/
def half_open_balanced (cb : CircuitBreaker) : Prop :=
  ∀ oa a s, cb.state = .HalfOpen oa a s → s = a

/-- Every breaker operation leaves the configuration unchanged. -/
theorem cb_step_config {cb cb1 : CircuitBreaker} (h : CBStep cb cb1) :
    cb1.config = cb.config := by
  cases h with
  | allow now =>
      rcases hst : cb.state with _ | oa | ⟨oa, a, s⟩
      · simp [allow_request, hst]
      · simp only [allow_request, hst]
        split <;> rfl
      · simp [allow_request, hst]
  | success rt now =>
      simp only [record_success]
      rcases hst : (add_request_outcome cb now (.Success rt)).state with _ | oa | ⟨oa, a, s⟩
      · rfl
      · rfl
      · dsimp only
        split
        · split <;> rfl
        · rfl
  | failure rt now =>
      simp only [record_failure]
      rcases hst : (add_request_outcome cb now (.Failure rt)).state with _ | oa | ⟨oa, a, s⟩
      · dsimp only
        split <;> rfl
      · rfl
      · rfl

/-- Every breaker operation preserves the half-open balance invariant. -/
theorem cb_step_balanced {cb cb1 : CircuitBreaker} (hstep : CBStep cb cb1)
    (hinv : half_open_balanced cb) : half_open_balanced cb1 := by
  cases hstep with
  | allow now =>
      intro oa a s hs
      rcases hst : cb.state with _ | oa2 | ⟨oa2, a2, s2⟩
      · simp [allow_request, hst] at hs
      · simp only [allow_request, hst] at hs
        split at hs
        · simp at hs
          omega
        · simp [hst] at hs
      · simp only [allow_request, hst] at hs
        simp at hs
        have := hinv oa2 a2 s2 hst
        omega
  | success rt now =>
      intro oa a s hs
      rcases hst : cb.state with _ | oa2 | ⟨oa2, a2, s2⟩
      · simp [record_success, add_request_outcome, hst] at hs
      · simp [record_success, add_request_outcome, hst] at hs
      · simp only [record_success, add_request_outcome, hst] at hs
        split at hs
        · split at hs <;> simp at hs
        · simp at hs
          have := hinv oa2 a2 s2 hst
          omega
  | failure rt now =>
      intro oa a s hs
      rcases hst : cb.state with _ | oa2 | ⟨oa2, a2, s2⟩
      · simp only [record_failure, add_request_outcome, hst] at hs
        split at hs <;> simp at hs
      · simp [record_failure, add_request_outcome, hst] at hs
      · simp [record_failure, add_request_outcome, hst] at hs

/-- Reachable breakers keep the configuration they were created with. -/
theorem cb_reachable_config (cfg : CircuitBreakerConfig) (name : String)
    {cb : CircuitBreaker} (h : CBReachable cfg name cb) : cb.config = cfg := by
  induction h with
  | init => rfl
  | step hr hstep ih => rw [cb_step_config hstep]; exact ih

/-- Reachable breakers satisfy the half-open balance invariant. -/
theorem cb_reachable_balanced (cfg : CircuitBreakerConfig) (name : String)
    {cb : CircuitBreaker} (h : CBReachable cfg name cb) : half_open_balanced cb := by
  induction h with
  | init => intro oa a s hs; simp [CircuitBreaker.new] at hs
  | step hr hstep ih => exact cb_step_balanced hstep ih

/-- C10: in every reachable HalfOpen state the success counter equals the attempt
counter, because only successes advance the probe counters while a probe failure
reopens the circuit instead; consequently a probe round that completes without a
failure always carries a 100 percent success rate, so whenever success_threshold
is at most 100 the reopen-on-insufficient-success-rate branch of record_success
cannot fire and completing the round always closes the circuit. -/
theorem half_open_successes_eq_attempts (cfg : CircuitBreakerConfig) (name : String)
    (cb : CircuitBreaker) (h : CBReachable cfg name cb) :
    (∀ oa a s, cb.state = .HalfOpen oa a s → s = a) ∧
    (cfg.success_threshold ≤ 100 →
      ∀ oa a s rt now, cb.state = .HalfOpen oa a s →
        a + 1 ≥ cfg.half_open_max_requests →
        (record_success cb rt now).state = .Closed) := by
  have hbal := cb_reachable_balanced cfg name h
  have hcfg := cb_reachable_config cfg name h
  refine ⟨hbal, ?_⟩
  intro hthr oa a s rt now hst hround
  have hsa : s = a := hbal oa a s hst
  subst hsa
  have hrate : ((s : ℚ) + 1) / ((s : ℚ) + 1) * 100 = 100 := by
    rw [div_self (by positivity)]
    ring
  simp only [record_success, add_request_outcome, hst]
  rw [if_pos (by simpa [hcfg] using hround)]
  rw [if_pos ?_]
  · push_cast
    rw [hrate, hcfg]
    exact hthr

/-- C10 witness helper: a concrete reachable HalfOpen breaker, produced by one
recorded failure that opens the circuit and a gate check after the recovery
timeout. -/
theorem half_open_reachable_example :
    CBReachable ⟨50, 1, 60, 5, 1, 60⟩ "svc"
      (⟨⟨50, 1, 60, 5, 1, 60⟩, .HalfOpen 0 0 0, [.Failure 0], "svc"⟩ : CircuitBreaker) := by
  have h0 : CBReachable ⟨50, 1, 60, 5, 1, 60⟩ "svc"
      (CircuitBreaker.new "svc" ⟨50, 1, 60, 5, 1, 60⟩) := CBReachable.init
  have h1 := h0.step (CBStep.failure (CircuitBreaker.new "svc" ⟨50, 1, 60, 5, 1, 60⟩) 0 0)
  have e1 : record_failure (CircuitBreaker.new "svc" ⟨50, 1, 60, 5, 1, 60⟩) 0 0 =
      ⟨⟨50, 1, 60, 5, 1, 60⟩, .Open 0, [.Failure 0], "svc"⟩ := by
    norm_num [record_failure, CircuitBreaker.new, add_request_outcome, prune_history,
      should_open_circuit, calculate_failure_rate, failures_in, RequestOutcome.time]
  rw [e1] at h1
  have h2 := h1.step
    (CBStep.allow ⟨⟨50, 1, 60, 5, 1, 60⟩, .Open 0, [.Failure 0], "svc"⟩ 5)
  have e2 : (allow_request ⟨⟨50, 1, 60, 5, 1, 60⟩, .Open 0, [.Failure 0], "svc"⟩ 5).2 =
      ⟨⟨50, 1, 60, 5, 1, 60⟩, .HalfOpen 0 0 0, [.Failure 0], "svc"⟩ := by
    norm_num [allow_request]
  rw [e2] at h2
  exact h2

/-- C10 witness: the reachable HalfOpen breaker closes on completing its probe
round with a success. -/
theorem half_open_successes_eq_attempts_witness :
    (record_success (⟨⟨50, 1, 60, 5, 1, 60⟩, .HalfOpen 0 0 0, [.Failure 0], "svc"⟩ :
        CircuitBreaker) 6 6).state = .Closed :=
  (half_open_successes_eq_attempts ⟨50, 1, 60, 5, 1, 60⟩ "svc"
      ⟨⟨50, 1, 60, 5, 1, 60⟩, .HalfOpen 0 0 0, [.Failure 0], "svc"⟩
      half_open_reachable_example).2
    (by norm_num) 0 0 0 6 6 rfl (by norm_num)

end LibAi
